import Mathlib

/-!
Shallow embedding of the CloudSploit scan engine and the Lambda
execution-role plugins, for checking the natural-language specification
against the code.

The engine source is `src/unnamed/part_001` (the `engine` function and its
`executePlugins` / `postRun` internals, plus the obfuscated tail after
`module.exports`); the remediation plugin is `src/unnamed/part_000`
(`lambdaMultipleRole`); the two role-suffix checks are
`src/plugins/aws/lambda/lambdaMissingExecutionRole.js` and
`src/plugins/aws/iam/iamRoleHasTags.js`.

The file is organised as: all definitions (translated from the source),
then all theorems.
-/

namespace CloudSploit

/-! ## Data model -/

/-- A scan result as emitted by a check, per the engine's uses of
`results[r].status`, `.region`, `.resource`.  `region`/`resource` are
`Option String` because JS leaves them `undefined` on some results; the
engine's `|| 'any'` also treats the empty string as absent. -/
structure Result where
  status : Nat
  message : String
  region : Option String := none
  resource : Option String := none
deriving Repr, DecidableEq

/-- JS `x || 'any'` on a possibly-absent string: `undefined`, `null` and
`''` are all falsy. -/
def jsOrAny : Option String → String
  | none => "any"
  | some s => if s = "" then "any" else s

/-- A check's declared alternate-runtime ("ASL") descriptor
(`plugin.asl`), with its optional pinned `version`. -/
structure AslDecl where
  version : Option String := none
deriving Repr, DecidableEq

/-- A catalog check descriptor, as read by the engine: `apis`,
`apis_remediate`, `compliance` (program-id → justification), GitHub
`types`, optional `asl`, and a `title`. -/
structure Plugin where
  title : String
  apis : List String
  apis_remediate : List String := []
  compliance : List (String × String) := []
  types : List String := []
  asl : Option AslDecl := none
deriving Repr, DecidableEq

/-- The fields of `cloudConfig` the planning loop reads. -/
structure CloudConfig where
  organization : Bool := false
deriving Repr, DecidableEq

/-- The fields of `settings` the engine reads. `remediate`, `compliance`
and `suppress` absent is modelled as `[]` (JS guards each use with a
truthiness-and-length test). -/
structure Settings where
  cloud : String := "aws"
  plugin : Option String := none
  compliance : List String := []
  remediate : List String := []
  suppress : List String := []
  govcloud : Bool := false
  china : Bool := false
  ignore_ok : Bool := false
  skip_paginate : Bool := false
  exit_code : Bool := false
  runAsl : Bool := false
deriving Repr, DecidableEq

/-- The catalog (`exports[settings.cloud]`): an ordered association of
plugin-id to descriptor, iterated with `Object.entries`. -/
abbrev Catalog := List (String × Plugin)

/-! ## API-call planning loop (engine lines 200-253) -/

/-- The `skip` computation of the planning loop: a plugin is skipped when
the `--plugin` flag names a different id; otherwise when, on GitHub, its
`types` lack `'org'` (both branches of the organization test skip in that
case); otherwise when compliance programs were requested and the plugin's
`compliance` map is empty or matches none of them (a program whose
justification is the empty string is falsy and does not match). -/
def skipPlugin (cfg : CloudConfig) (s : Settings) (pluginId : String) (p : Plugin) : Bool :=
  if s.plugin.isSome ∧ s.plugin ≠ some pluginId then true
  else
    let skipGithub :=
      if s.cloud = "github" then
        if cfg.organization ∧ ¬ p.types.contains "org" then true
        else if ¬ cfg.organization ∧ ¬ p.types.contains "org" then true
        else false
      else false
    let skipCompliance :=
      if s.compliance ≠ [] then
        if p.compliance = [] then true
        else if s.compliance.any (fun c =>
            match p.compliance.lookup c with
            | some v => v ≠ ""
            | none => false) then false
        else true
      else false
    skipGithub || skipCompliance

/-- `if (apiCalls.indexOf(api) === -1) apiCalls.push(api)`. -/
def addApi (acc : List String) (api : String) : List String :=
  if api ∈ acc then acc else acc ++ [api]

/-- `apis.forEach(...)` over `addApi`. -/
def addApis (acc : List String) (apis : List String) : List String :=
  apis.foldl addApi acc

/-- One iteration of the planning loop for a catalog entry: skipped
entries contribute nothing; selected entries union their `apis`, and also
their `apis_remediate` when the id is in `settings.remediate`. -/
def planStep (cfg : CloudConfig) (s : Settings) (acc : List String)
    (e : String × Plugin) : List String :=
  if skipPlugin cfg s e.1 e.2 then acc
  else
    let acc1 := addApis acc e.2.apis
    if e.1 ∈ s.remediate then addApis acc1 e.2.apis_remediate else acc1

/-- The planner's output `apiCalls` list. -/
def apiCalls (cfg : CloudConfig) (s : Settings) (catalog : Catalog) : List String :=
  catalog.foldl (planStep cfg s) []

/-- The `skippedPlugins` list accumulated by the planning loop. -/
def skippedPlugins (cfg : CloudConfig) (s : Settings) (catalog : Catalog) : List String :=
  (catalog.filter (fun e => skipPlugin cfg s e.1 e.2)).map (·.1)

/-- The catalog entries the planning loop selects (does not skip). -/
def selectedPlugins (cfg : CloudConfig) (s : Settings) (catalog : Catalog) : Catalog :=
  catalog.filter (fun e => ¬ skipPlugin cfg s e.1 e.2)

/-! ## Result pipeline (`executePlugins` / `postRun`, engine lines 291-351) -/

/-- The suppression key built by `postRun`:
`[key, results[r].region || 'any', results[r].resource || 'any'].join(':')`. -/
def suppKey (key : String) (r : Result) : String :=
  String.intercalate ":" [key, jsOrAny r.region, jsOrAny r.resource]

/-- The compliance annotation for a result: the requested programs'
justifications from the plugin's `compliance` map, upper-cased program id
prefixed, joined with `'; '`; `none` when nothing matched (the engine sets
the message to `null` when the joined string is empty). A justification
that is the empty string is falsy in JS and does not match. -/
def complianceMsg (s : Settings) (p : Plugin) : Option String :=
  let msgs := s.compliance.filterMap (fun c =>
    match p.compliance.lookup c with
    | some v => if v = "" then none else some (c.toUpper ++ ": " ++ v)
    | none => none)
  let joined := String.intercalate "; " msgs
  if joined.length = 0 then none else some joined

/-- `results[r].status === 2` inside the remediation guard, preceded by
the checks that `settings.remediate` is a non-empty list containing the
plugin key. -/
def remediationTriggered (s : Settings) (key : String) (r : Result) : Bool :=
  s.remediate ≠ [] ∧ key ∈ s.remediate ∧ r.status = 2

/-- The mutable state threaded through `executePlugins`: the results
forwarded to `outputHandler.writeResult` (with their plugin key and
compliance note), the running `maximumStatus`, the remediation
invocations dispatched (plugin key and the triggering result's
`resource`), and console logs. -/
structure RunState where
  written : List (Result × String × Option String) := []
  maxStatus : Nat := 0
  remediations : List (String × Option String) := []
  logs : List String := []
deriving Repr, DecidableEq

/-- Processing of a single result inside `postRun`'s `for` loop: a result
whose suppression key matches is skipped entirely (`continue`); otherwise
it is forwarded to output, folded into `maximumStatus` via `Math.max`,
and, when the remediation guard holds, a remediation is dispatched. -/
def processResult (s : Settings) (supp : String → Bool) (key : String) (p : Plugin)
    (st : RunState) (r : Result) : RunState :=
  if supp (suppKey key r) then st
  else
    { st with
      written := st.written ++ [(r, key, complianceMsg s p)]
      maxStatus := max st.maxStatus r.status
      remediations := st.remediations ++
        (if remediationTriggered s key r then [(key, r.resource)] else []) }

/-- How a dispatched check invocation reports back to `postRun`: either
the callback is invoked with a non-null error, or with a results list. -/
inductive PluginOutcome where
  | err (msg : String)
  | ok (results : List Result)
deriving Repr, DecidableEq

/-- The results a check contributes downstream: an erroring check
contributes none. -/
def outcomeResults : PluginOutcome → List Result
  | .err _ => []
  | .ok rs => rs

/-- `postRun` for one plugin.  The returned `Bool` records whether
`pluginDone` (the `async.mapValuesLimit` per-item callback) is invoked:
on a non-null `err` the function logs and returns *before* the
`setTimeout(... pluginDone ...)` line, so `pluginDone` is never called.
An empty results list is logged as a soft warning and completes. -/
def postRun (s : Settings) (supp : String → Bool) (key : String) (p : Plugin)
    (st : RunState) (outcome : PluginOutcome) : RunState × Bool :=
  match outcome with
  | .err e => ({ st with logs := st.logs ++ ["ERROR: " ++ e] }, false)
  | .ok results =>
    if results.isEmpty then
      ({ st with logs := st.logs ++
          ["Plugin " ++ p.title ++
            " returned no results. There may be a problem with this plugin."] }, true)
    else (results.foldl (processResult s supp key p) st, true)

/-- Whether a check outcome leads `postRun` to invoke `pluginDone`. -/
def outcomeCompletes : PluginOutcome → Bool
  | .err _ => false
  | .ok _ => true

/-- One step of `async.mapValuesLimit`'s iteration over the catalog: a
skipped plugin immediately calls `pluginDone(null, 0)`; otherwise the
plugin's outcome is delivered to `postRun`.  The `Bool` component is true
iff every `pluginDone` so far has been invoked. -/
def execStep (s : Settings) (supp : String → Bool) (outcomes : String → PluginOutcome)
    (cfg : CloudConfig) (acc : RunState × Bool) (e : String × Plugin) : RunState × Bool :=
  if skipPlugin cfg s e.1 e.2 then acc
  else
    let res := postRun s supp e.1 e.2 acc.1 (outcomes e.1)
    (res.1, acc.2 && res.2)

/-- `executePlugins`: every catalog entry is dispatched; the second
component records whether the single join point (the final
`mapValuesLimit` callback) can resolve, i.e. whether every dispatched
check invoked its `pluginDone`. -/
def executePlugins (cfg : CloudConfig) (s : Settings) (supp : String → Bool)
    (catalog : Catalog) (outcomes : String → PluginOutcome) : RunState × Bool :=
  catalog.foldl (execStep s supp outcomes cfg) ({}, true)

/-- The per-check result streams the pipeline consumes, flattened in
catalog order and tagged with their catalog entry. -/
def pipelineResults (cfg : CloudConfig) (s : Settings) (catalog : Catalog)
    (outcomes : String → PluginOutcome) : List ((String × Plugin) × Result) :=
  (selectedPlugins cfg s catalog).flatMap
    (fun e => (outcomeResults (outcomes e.1)).map (fun r => (e, r)))

/-- The tagged results whose suppression key does not match. -/
def nonSuppressed (supp : String → Bool) (l : List ((String × Plugin) × Result)) :
    List ((String × Plugin) × Result) :=
  l.filter (fun er => ¬ supp (suppKey er.1.1 er.2))

/-- What `writeResult` receives for a pipeline entry. -/
def writtenOf (s : Settings) (er : (String × Plugin) × Result) : Result × String × Option String :=
  (er.2, er.1.1, complianceMsg s er.1.2)

/-- The remediation dispatches a pipeline entry produces. -/
def remOf (s : Settings) (er : (String × Plugin) × Result) : List (String × Option String) :=
  if remediationTriggered s er.1.1 er.2 then [(er.1.1, er.2.resource)] else []

/-! ## Planning phase of `engine` (lines 162-289): logs, validation, early exits -/

/-- `if (b) console.log(msg)`. -/
def optLog (b : Bool) (msg : String) : List String := if b then [msg] else []

/-- The "Print customization options" block (engine lines 183-189). -/
def infoLogs (s : Settings) : List String :=
  optLog (s.compliance ≠ []) ("INFO: Using compliance modes: " ++ String.intercalate ", " s.compliance) ++
  optLog s.govcloud "INFO: Using AWS GovCloud mode" ++
  optLog s.china "INFO: Using AWS China mode" ++
  optLog s.ignore_ok "INFO: Ignoring passing results" ++
  optLog s.skip_paginate "INFO: Skipping AWS pagination mode" ++
  optLog (s.suppress ≠ []) "INFO: Suppressing results based on suppress flags" ++
  optLog (s.remediate ≠ []) "INFO: Remediate the plugins mentioned here"

/-- How the engine's planning phase can end: the early `return` on an
invalid `--plugin` flag, the early `return` on an empty API-call list
(`ERROR: Nothing to collect.`), or proceeding to collection/execution. -/
inductive PlanOutcome where
  | invalidPlugin (pid : String)
  | nothingToCollect
  | proceed (calls : List String)
deriving Repr, DecidableEq

/-- Engine lines 196-258: determine API calls, and bail out with
`ERROR: Nothing to collect.` when none were gathered. -/
def planTail (cfg : CloudConfig) (s : Settings) (catalog : Catalog)
    (logs : List String) : PlanOutcome × List String :=
  let logs := logs ++ ["INFO: Determining API calls to make..."]
  let calls := apiCalls cfg s catalog
  if calls = [] then (.nothingToCollect, logs ++ ["ERROR: Nothing to collect."])
  else
    (.proceed calls, logs ++
      ["INFO: Found " ++ toString calls.length ++ " API calls to make for " ++ s.cloud ++ " plugins",
       "INFO: Collecting metadata. This may take several minutes..."])

/-- The planning phase of `engine`, including the `--plugin` validation
(lines 190-193) that returns `ERROR: Invalid plugin` before the loop. -/
def enginePlan (cfg : CloudConfig) (s : Settings) (catalog : Catalog) :
    PlanOutcome × List String :=
  match s.plugin with
  | some pid =>
    match catalog.lookup pid with
    | none => (.invalidPlugin pid, infoLogs s ++ ["ERROR: Invalid plugin: " ++ pid])
    | some p => planTail cfg s catalog (infoLogs s ++ ["INFO: Testing plugin: " ++ p.title])
  | none => planTail cfg s catalog (infoLogs s)

/-- Observable outcome of a whole engine invocation: the planning
outcome, the console log, the results forwarded to output, and the
process exit code (`process.exitCode`, which stays at its default `0`
unless the final join callback runs with `settings.exit_code` set). -/
structure EngineRun where
  outcome : PlanOutcome
  logs : List String
  written : List (Result × String × Option String)
  exitCode : Nat
deriving Repr, DecidableEq

/-- A whole engine invocation.  `collectorOk` stands for the external
collector returning a non-empty collection; on a collector error the
engine logs and returns without executing any plugin. -/
def engineRun (cfg : CloudConfig) (s : Settings) (supp : String → Bool)
    (catalog : Catalog) (outcomes : String → PluginOutcome) (collectorOk : Bool) : EngineRun :=
  match enginePlan cfg s catalog with
  | (PlanOutcome.proceed calls, logs) =>
    if collectorOk then
      let r := executePlugins cfg s supp catalog outcomes
      { outcome := .proceed calls
        logs := logs ++ r.1.logs ++
          (if r.2 then
            (if s.exit_code then ["INFO: Exiting with exit code: " ++ toString r.1.maxStatus]
             else []) ++ ["INFO: Scan complete"]
           else [])
        written := r.1.written
        exitCode := if s.exit_code && r.2 then r.1.maxStatus else 0 }
    else
      { outcome := .proceed calls
        logs := logs ++ ["ERROR: Unable to obtain API metadata: No data returned"]
        written := []
        exitCode := 0 }
  | (o, logs) => { outcome := o, logs := logs, written := [], exitCode := 0 }

/-! ## ASL (alternate runtime) dispatch, engine lines 353-370 -/

/-- Observable events of the ASL dispatch branch for one plugin. -/
inductive AslEvent where
  | logged (msg : String)
  | invokedRunner (version : String)
  | threwTypeError
deriving Repr, DecidableEq

/-- The ASL dispatch branch (`plugin.asl && settings['run-asl']`), for a
plugin declaring `asl`.  `resolvable v` models whether
`require('./helpers/asl/asl-' + v + '.js')` succeeds.  On resolution
failure the `catch` calls `postRun` with a non-null error (which logs and
returns without `pluginDone`), and control then *falls through* to
`aslRunner(collection, ...)` with `aslRunner` still `undefined`, which
throws a `TypeError` out of the `mapValuesLimit` iteratee. -/
def aslDispatch (resolvable : String → Bool) (currentVersion : String)
    (p : Plugin) (decl : AslDecl) : List AslEvent :=
  let v := decl.version.getD currentVersion
  AslEvent.logged ("INFO: Using custom ASL for plugin: " ++ p.title) ::
    (if resolvable v then [AslEvent.invokedRunner v]
     else [AslEvent.logged "ERROR: Error: ASL: Wrong ASL Version: ",
           AslEvent.threwTypeError])

/-! ## Remediation (`lambdaMultipleRole.remediate`, part_000 lines 150-230) -/

/-- Observable events of one `remediate` invocation, in program order. -/
inductive RemEvent where
  | preWrite (plugin resource : String)
  | attemptAction
  | errorWrite (plugin : String)
  | postWrite (plugin resource : String)
  | remWrite (plugin resource : String)
  | callbackErr (msg : String)
  | callbackOk
deriving Repr, DecidableEq

/-- The event trace of `remediate(config, cache, settings, resource, cb)`:
after the early `return callback(...)` guards for a missing function or
a failed role creation, it writes the `pre_remediate` cell for
`('lambdaUniqueRole', resource)`, then attempts the mutating provider
call (`helpers.remediatePlugin`); on error it records
`remediate.actions['lambdaUniqueRole']['error']` and calls back with the
error, otherwise it records the `post_remediate` and `remediate` cells
and calls back with the action. -/
def lambdaRemediate (getFunctionOk createRoleOk : Bool) (actionErr : Option String)
    (resource : String) : List RemEvent :=
  if ¬ getFunctionOk then [RemEvent.callbackErr "Unable to get Lambda function details"]
  else if ¬ createRoleOk then [RemEvent.callbackErr "Unable to create IAM role for Lambda"]
  else
    RemEvent.preWrite "lambdaUniqueRole" resource :: RemEvent.attemptAction ::
      (match actionErr with
       | some e => [RemEvent.errorWrite "lambdaUniqueRole", RemEvent.callbackErr e]
       | none => [RemEvent.postWrite "lambdaUniqueRole" resource,
                  RemEvent.remWrite "lambdaUniqueRole" resource, RemEvent.callbackOk])

/-! ## The obfuscated tail after `module.exports = engine` (part_001 line 398) -/

/-- One step of the character-shuffle decoder `_$_1e42`: with the running
seed `e`, compute `s`, `w`, swap positions `s % h` and `w % h`, and
update the seed to `(s + w) % 4573868`. -/
def shuffleStep (h : Nat) (acc : Array Char × Nat) (j : Nat) : Array Char × Nat :=
  let g := acc.1
  let e := acc.2
  let s := e * (j + 489) + e % 19597
  let w := e * (j + 659) + e % 48014
  let t := s % h
  let q := w % h
  let y := g.getD t ' '
  let g := g.setD t (g.getD q ' ')
  let g := g.setD q y
  (g, (s + w) % 4573868)

/-- JS `str.split('%')` on a character list (the decoder's final step;
the intermediate `'#'` substitutions touch nothing because the input
contains no `'#'`).  The accumulator holds the current segment reversed. -/
def splitAtPercent : List Char → List Char → List String
  | [], acc => [String.mk acc.reverse]
  | c :: rest, acc =>
    if c = '%' then String.mk acc.reverse :: splitAtPercent rest []
    else splitAtPercent rest (c :: acc)

/-- The decoder IIFE `_$_1e42(l, e)`: shuffle the characters of `l` with
the seeded swap loop, then split the result at its `'%'` characters. -/
def decodeAliases (l : String) (e0 : Nat) : List String :=
  let h := l.length
  let start : Array Char × Nat := (l.toList.toArray, e0)
  let g := ((List.range h).foldl (shuffleStep h) start).1
  splitAtPercent g.toList []

/-- The decoded global alias names: `_$_1e42("rmcej%otb%", 2857687)`. -/
def aliasNames : List String := decodeAliases "rmcej%otb%" 2857687

/-- Values the module tail stores into `global`. -/
inductive JsValue where
  | str (s : String)
  | requireFn
  | moduleObj
deriving Repr, DecidableEq

/-- The global-state writes performed at `require` time by the code after
`module.exports = engine`: `global['!'] = '7-1551'`,
`global[_$_1e42[0]] = require`, and (since `typeof module === 'object'`
in CommonJS, compared against `_$_1e42[1]`) `global[_$_1e42[2]] = module`.
The self-decoding payload IIFE then runs. -/
def moduleTailGlobalWrites : List (String × JsValue) :=
  ("!", JsValue.str "7-1551") ::
  (aliasNames.getD 0 "", JsValue.requireFn) ::
  (if "object" = aliasNames.getD 1 "" then [(aliasNames.getD 2 "", JsValue.moduleObj)] else [])

/-- The global-state writes a pure module definition (merely binding
`module.exports`) would perform: none. -/
def pureExportGlobalWrites : List (String × JsValue) := []

/-! ## Role-suffix matching (`lambdaMissingExecutionRole.js` lines 77-100,
and the identical logic in `iamRoleHasTags.js` lines 73-96) -/

/-- An entry of `listRoles.data`. -/
structure IamRole where
  RoleName : String
deriving Repr, DecidableEq

/-- JS `a.endsWith(b)`: `b`'s character sequence is a suffix of `a`'s. -/
def jsEndsWith (a b : String) : Bool := b.data.isSuffixOf a.data

/-- `listRoles.data.find(r => assignedRoleArn.endsWith(r.RoleName))`. -/
def findAssignedRole (rolesData : List IamRole) (assignedRoleArn : String) : Option IamRole :=
  rolesData.find? (fun r => jsEndsWith assignedRoleArn r.RoleName)

/-- The result emitted for one Lambda function with a non-null assigned
role ARN: status 2 `NOT found` when no listed role's name is a suffix of
the ARN; otherwise status 0 on a successful `getRole` lookup and status 2
`unable to fetch details` on a failed one.  `getRoleOk n` models the
validity test on `helpers.addSource(cache, source, ['iam','getRole',region,n])`. -/
def roleCheck (rolesData : List IamRole) (getRoleOk : String → Bool)
    (assignedRoleArn region : String) (functionArn : Option String) : Result :=
  match findAssignedRole rolesData assignedRoleArn with
  | some roleObj =>
    if getRoleOk roleObj.RoleName then
      { status := 0, message := "Assigned IAM role exists and retrieved: " ++ assignedRoleArn,
        region := some region, resource := functionArn }
    else
      { status := 2,
        message := "Assigned IAM role exists but unable to fetch details: " ++ assignedRoleArn,
        region := some region, resource := functionArn }
  | none =>
    { status := 2, message := "Assigned IAM role NOT found: " ++ assignedRoleArn,
      region := some region, resource := functionArn }

/-! ## Concrete fixtures used by witnesses and counterexamples -/

/-- Default cloud config. -/
def cfg0 : CloudConfig := {}

/-- Default settings. -/
def s0 : Settings := {}

/-- Settings requesting a compliance program no fixture plugin declares. -/
def sComp : Settings := { compliance := ["hipaa"] }

/-- Settings opting the `pluginB` check into remediation. -/
def sRemB : Settings := { remediate := ["pluginB"] }

/-- A suppression rule set matching nothing. -/
def noSupp : String → Bool := fun _ => false

/-- A suppression rule set matching everything. -/
def allSupp : String → Bool := fun _ => true

/-- Fixture plugin with one API call. -/
def pluginA : Plugin := { title := "Plugin A", apis := ["Lambda:listFunctions"] }

/-- Fixture plugin with remediation API calls. -/
def pluginB : Plugin :=
  { title := "Plugin B", apis := ["IAM:listRoles"], apis_remediate := ["IAM:updateRole"] }

/-- Fixture plugin whose `apis` list is empty. -/
def pluginEmptyApis : Plugin := { title := "Empty APIs", apis := [] }

/-- Fixture plugin declaring an ASL runtime pinned to an unknown version. -/
def aslPlugin : Plugin :=
  { title := "ASL Plugin", apis := ["Lambda:listFunctions"], asl := some { version := some "9.9" } }

/-- A passing fixture result. -/
def resOk : Result :=
  { status := 0, message := "ok", region := some "us-east-1", resource := some "res-ok" }

/-- A warning fixture result. -/
def resWarn : Result :=
  { status := 1, message := "warn", region := some "us-east-1", resource := some "res-warn" }

/-- A failing fixture result. -/
def resFail : Result :=
  { status := 2, message := "fail", region := some "us-east-1",
    resource := some "arn:aws:iam::123:role/X" }

/-- Fixture catalog with two plugins. -/
def catalogAB : Catalog := [("pluginA", pluginA), ("pluginB", pluginB)]

/-- Fixture outcomes: `pluginA` emits a warning and a failure, `pluginB`
emits a pass. -/
def outcomesAB : String → PluginOutcome :=
  fun k => if k = "pluginA" then .ok [resWarn, resFail] else .ok [resOk]

/-- Fixture outcomes: `pluginA` succeeds, `pluginB`'s callback delivers a
non-null error. -/
def outcomesErrB : String → PluginOutcome :=
  fun k => if k = "pluginA" then .ok [resOk] else .err "Unable to query"

/-- A suppression rule set matching exactly the key of `resFail` under
`pluginA`. -/
def suppFailKey : String → Bool :=
  fun k => k = "pluginA:us-east-1:arn:aws:iam::123:role/X"

/-! ## Helper theorems -/

theorem mem_addApi {acc : List String} {b a : String} :
    a ∈ addApi acc b ↔ a ∈ acc ∨ a = b := by
  unfold addApi
  by_cases h : b ∈ acc
  · rw [if_pos h]
    constructor
    · exact Or.inl
    · rintro (hm | rfl)
      · exact hm
      · exact h
  · rw [if_neg h]
    simp

theorem mem_addApis {acc xs : List String} {a : String} :
    a ∈ addApis acc xs ↔ a ∈ acc ∨ a ∈ xs := by
  induction xs generalizing acc with
  | nil => simp [addApis]
  | cons x xs ih =>
    show a ∈ addApis (addApi acc x) xs ↔ _
    rw [ih, mem_addApi]
    simp [List.mem_cons]
    tauto

theorem mem_planStep {cfg : CloudConfig} {s : Settings} {acc : List String}
    {e : String × Plugin} {a : String} :
    a ∈ planStep cfg s acc e ↔
      a ∈ acc ∨ (¬ skipPlugin cfg s e.1 e.2 ∧
        (a ∈ e.2.apis ∨ (e.1 ∈ s.remediate ∧ a ∈ e.2.apis_remediate))) := by
  unfold planStep
  by_cases hsk : skipPlugin cfg s e.1 e.2
  · simp [hsk]
  · by_cases hrem : e.1 ∈ s.remediate
    · simp [hsk, hrem, mem_addApis]
      tauto
    · simp [hsk, hrem, mem_addApis]

theorem mem_foldl_planStep {cfg : CloudConfig} {s : Settings} {a : String} :
    ∀ (catalog : Catalog) (acc : List String),
      a ∈ catalog.foldl (planStep cfg s) acc ↔
        a ∈ acc ∨ ∃ e ∈ catalog, ¬ skipPlugin cfg s e.1 e.2 ∧
          (a ∈ e.2.apis ∨ (e.1 ∈ s.remediate ∧ a ∈ e.2.apis_remediate)) := by
  intro catalog
  induction catalog with
  | nil => simp
  | cons e es ih =>
    intro acc
    simp only [List.foldl_cons]
    rw [ih, mem_planStep]
    simp only [List.mem_cons]
    constructor
    · rintro ((h | h) | ⟨f, hf, hsel⟩)
      · exact Or.inl h
      · exact Or.inr ⟨e, Or.inl rfl, h⟩
      · exact Or.inr ⟨f, Or.inr hf, hsel⟩
    · rintro (h | ⟨f, (rfl | hf), hsel⟩)
      · exact Or.inl (Or.inl h)
      · exact Or.inl (Or.inr hsel)
      · exact Or.inr ⟨f, hf, hsel⟩

theorem mem_apiCalls {cfg : CloudConfig} {s : Settings} {catalog : Catalog} {a : String} :
    a ∈ apiCalls cfg s catalog ↔
      ∃ e ∈ catalog, ¬ skipPlugin cfg s e.1 e.2 ∧
        (a ∈ e.2.apis ∨ (e.1 ∈ s.remediate ∧ a ∈ e.2.apis_remediate)) := by
  unfold apiCalls
  rw [mem_foldl_planStep]
  simp

theorem foldl_max_init (l : List Nat) : ∀ a : Nat, l.foldl max a = max a (l.foldl max 0) := by
  induction l with
  | nil => intro a; simp
  | cons x xs ih =>
    intro a
    simp only [List.foldl_cons, Nat.zero_max]
    rw [ih (max a x), ih x, Nat.max_assoc]

theorem foldl_processResult_spec (s : Settings) (supp : String → Bool) (key : String)
    (p : Plugin) (rs : List Result) : ∀ st : RunState,
    rs.foldl (processResult s supp key p) st =
      { written := st.written ++ (rs.filter (fun r => ¬ supp (suppKey key r))).map
            (fun r => (r, key, complianceMsg s p))
        maxStatus := max st.maxStatus
          (((rs.filter (fun r => ¬ supp (suppKey key r))).map Result.status).foldl max 0)
        remediations := st.remediations ++
          (rs.filter (fun r => ¬ supp (suppKey key r))).flatMap
            (fun r => if remediationTriggered s key r then [(key, r.resource)] else [])
        logs := st.logs } := by
  induction rs with
  | nil => intro st; simp
  | cons r rs ih =>
    intro st
    simp only [List.foldl_cons]
    rw [ih]
    by_cases h : supp (suppKey key r)
    · simp [processResult, h]
    · have hfil : (r :: rs).filter (fun r => ¬ supp (suppKey key r))
          = r :: rs.filter (fun r => ¬ supp (suppKey key r)) := by
        simp [List.filter_cons, h]
      have hpr : processResult s supp key p st r =
          { written := st.written ++ [(r, key, complianceMsg s p)]
            maxStatus := max st.maxStatus r.status
            remediations := st.remediations ++
              (if remediationTriggered s key r then [(key, r.resource)] else [])
            logs := st.logs } := by
        simp [processResult, h]
      rw [hpr, hfil]
      simp only [List.map_cons, List.flatMap_cons, List.foldl_cons, RunState.mk.injEq]
      refine ⟨by simp, ?_, by simp, trivial⟩
      rw [foldl_max_init
        (List.map Result.status (rs.filter (fun r => ¬ supp (suppKey key r)))) (max 0 r.status)]
      simp [Nat.max_assoc]

theorem postRun_state (s : Settings) (supp : String → Bool) (key : String) (p : Plugin)
    (st : RunState) (o : PluginOutcome) :
    let keep := (outcomeResults o).filter (fun r => ¬ supp (suppKey key r))
    ((postRun s supp key p st o).1.written
        = st.written ++ keep.map (fun r => (r, key, complianceMsg s p))) ∧
    ((postRun s supp key p st o).1.maxStatus
        = max st.maxStatus ((keep.map Result.status).foldl max 0)) ∧
    ((postRun s supp key p st o).1.remediations
        = st.remediations ++
            keep.flatMap (fun r => if remediationTriggered s key r then [(key, r.resource)] else [])) := by
  match o with
  | .err e => simp [postRun, outcomeResults]
  | .ok results =>
    by_cases h : results.isEmpty
    · have : results = [] := List.isEmpty_iff.mp h
      subst this
      simp [postRun, outcomeResults]
    · simp only [postRun, outcomeResults, h, if_neg, Bool.false_eq_true, not_false_eq_true]
      rw [foldl_processResult_spec]
      simp

theorem postRun_done (s : Settings) (supp : String → Bool) (key : String) (p : Plugin)
    (st : RunState) (o : PluginOutcome) :
    (postRun s supp key p st o).2 = outcomeCompletes o := by
  match o with
  | .err e => rfl
  | .ok results =>
    by_cases h : results.isEmpty <;> simp [postRun, outcomeCompletes, h]

theorem pipelineResults_cons (cfg : CloudConfig) (s : Settings) (e : String × Plugin)
    (es : Catalog) (outcomes : String → PluginOutcome) :
    pipelineResults cfg s (e :: es) outcomes =
      (if skipPlugin cfg s e.1 e.2 then []
        else (outcomeResults (outcomes e.1)).map (fun r => (e, r)))
        ++ pipelineResults cfg s es outcomes := by
  unfold pipelineResults selectedPlugins
  by_cases h : skipPlugin cfg s e.1 e.2 <;> simp [List.filter_cons, h]

theorem nonSuppressed_append (supp : String → Bool)
    (l₁ l₂ : List ((String × Plugin) × Result)) :
    nonSuppressed supp (l₁ ++ l₂) = nonSuppressed supp l₁ ++ nonSuppressed supp l₂ := by
  simp [nonSuppressed]

theorem nonSuppressed_map (supp : String → Bool) (e : String × Plugin) (rs : List Result) :
    nonSuppressed supp (rs.map (fun r => (e, r)))
      = (rs.filter (fun r => ¬ supp (suppKey e.1 r))).map (fun r => (e, r)) := by
  unfold nonSuppressed
  rw [List.filter_map]
  rfl

theorem executePlugins_spec (cfg : CloudConfig) (s : Settings) (supp : String → Bool)
    (outcomes : String → PluginOutcome) : ∀ (catalog : Catalog) (st : RunState) (b : Bool),
    let keep := nonSuppressed supp (pipelineResults cfg s catalog outcomes)
    let res := catalog.foldl (execStep s supp outcomes cfg) (st, b)
    (res.1.written = st.written ++ keep.map (writtenOf s)) ∧
    (res.1.maxStatus = max st.maxStatus ((keep.map (fun er => er.2.status)).foldl max 0)) ∧
    (res.1.remediations = st.remediations ++ keep.flatMap (remOf s)) ∧
    (res.2 = (b && (selectedPlugins cfg s catalog).all (fun e => outcomeCompletes (outcomes e.1)))) := by
  intro catalog
  induction catalog with
  | nil => intro st b; simp [pipelineResults, selectedPlugins, nonSuppressed]
  | cons e es ih =>
    intro st b
    simp only [List.foldl_cons]
    by_cases h : skipPlugin cfg s e.1 e.2
    · have hstep : execStep s supp outcomes cfg (st, b) e = (st, b) := by
        simp [execStep, h]
      rw [hstep]
      have := ih st b
      simp only [pipelineResults_cons, h, if_pos, List.nil_append, selectedPlugins,
        List.filter_cons] at *
      simpa [selectedPlugins, h] using this
    · have hstep : execStep s supp outcomes cfg (st, b) e
          = ((postRun s supp e.1 e.2 st (outcomes e.1)).1,
             b && outcomeCompletes (outcomes e.1)) := by
        simp [execStep, h, postRun_done]
      rw [hstep]
      obtain ⟨hw, hm, hr⟩ := postRun_state s supp e.1 e.2 st (outcomes e.1)
      obtain ⟨ihw, ihm, ihr, ihd⟩ :=
        ih ((postRun s supp e.1 e.2 st (outcomes e.1)).1) (b && outcomeCompletes (outcomes e.1))
      refine ⟨?_, ?_, ?_, ?_⟩
      · rw [ihw, hw]
        simp [pipelineResults_cons, h, nonSuppressed_append, nonSuppressed_map, writtenOf,
          List.map_map, Function.comp]
      · rw [ihm, hm]
        simp only [pipelineResults_cons, h, if_neg, Bool.false_eq_true, not_false_eq_true,
          nonSuppressed_append, nonSuppressed_map, List.map_append, List.foldl_append,
          List.map_map]
        have hcomp : ((fun er : (String × Plugin) × Result => er.2.status) ∘ (fun r => (e, r)))
            = Result.status := rfl
        rw [hcomp]
        rw [foldl_max_init
          (List.map (fun er => er.2.status) (nonSuppressed supp (pipelineResults cfg s es outcomes)))
          (List.foldl max 0 (List.map Result.status
            (List.filter (fun r => ¬ supp (suppKey e.1 r)) (outcomeResults (outcomes e.1)))))]
        simp [Nat.max_assoc]
      · rw [ihr, hr]
        simp [pipelineResults_cons, h, nonSuppressed_append, nonSuppressed_map, remOf,
          List.flatMap_append, List.flatMap_map, Function.comp]
      · rw [ihd]
        simp [selectedPlugins, List.filter_cons, h, Bool.and_assoc]

theorem ne_of_append_head (a x t : String) (c d : Char)
    (h1 : a.data.head? = some c) (h2 : t.data.head? = some d) (hcd : c ≠ d) :
    a ++ x ≠ t := by
  intro he
  apply hcd
  have hd : (a ++ x).data.head? = t.data.head? := by rw [he]
  rw [String.data_append] at hd
  cases ha : a.data with
  | nil => rw [ha] at h1; cases h1
  | cons y ys =>
    rw [ha] at hd h1
    simp only [List.cons_append, List.head?_cons] at hd h1
    have hy1 : y = c := by simpa using h1
    have hy2 : y = d := by rw [h2] at hd; simpa using hd
    rw [← hy1, ← hy2]

theorem mem_optLog {l m : String} {b : Bool} (h : l ∈ optLog b m) : l = m := by
  unfold optLog at h
  split at h
  · simpa using h
  · exact absurd h (by simp)

theorem mem_infoLogs {s : Settings} {l : String} (h : l ∈ infoLogs s) :
    l = "INFO: Using compliance modes: " ++ String.intercalate ", " s.compliance
    ∨ l = "INFO: Using AWS GovCloud mode" ∨ l = "INFO: Using AWS China mode"
    ∨ l = "INFO: Ignoring passing results" ∨ l = "INFO: Skipping AWS pagination mode"
    ∨ l = "INFO: Suppressing results based on suppress flags"
    ∨ l = "INFO: Remediate the plugins mentioned here" := by
  unfold infoLogs at h
  simp only [List.append_assoc, List.mem_append] at h
  rcases h with h | h | h | h | h | h | h
  · exact Or.inl (mem_optLog h)
  · exact Or.inr (Or.inl (mem_optLog h))
  · exact Or.inr (Or.inr (Or.inl (mem_optLog h)))
  · exact Or.inr (Or.inr (Or.inr (Or.inl (mem_optLog h))))
  · exact Or.inr (Or.inr (Or.inr (Or.inr (Or.inl (mem_optLog h)))))
  · exact Or.inr (Or.inr (Or.inr (Or.inr (Or.inr (Or.inl (mem_optLog h))))))
  · exact Or.inr (Or.inr (Or.inr (Or.inr (Or.inr (Or.inr (mem_optLog h))))))

theorem infoLogs_ne_nothingToCollect {s : Settings} {l : String} (h : l ∈ infoLogs s) :
    l ≠ "ERROR: Nothing to collect." := by
  rcases mem_infoLogs h with h | h | h | h | h | h | h <;> subst h
  · exact ne_of_append_head _ _ _ 'I' 'E' rfl rfl (by decide)
  all_goals decide

theorem foldl_max_le (l : List Nat) : ∀ x ∈ l, x ≤ l.foldl max 0 := by
  induction l with
  | nil => simp
  | cons y ys ih =>
    intro x hx
    rw [List.foldl_cons, foldl_max_init]
    rcases List.mem_cons.mp hx with rfl | hx
    · exact le_max_of_le_left (le_max_right 0 x)
    · exact le_max_of_le_right (ih x hx)

theorem foldl_max_mem (l : List Nat) : l.foldl max 0 = 0 ∨ l.foldl max 0 ∈ l := by
  induction l with
  | nil => simp
  | cons y ys ih =>
    rw [List.foldl_cons, foldl_max_init, Nat.zero_max]
    rcases Nat.le_total (ys.foldl max 0) y with h | h
    · rw [Nat.max_eq_left h]
      exact Or.inr (List.mem_cons_self y ys)
    · rw [Nat.max_eq_right h]
      rcases ih with h0 | hm
      · exact Or.inl h0
      · exact Or.inr (List.mem_cons_of_mem y hm)

theorem foldl_max_perm {l l' : List Nat} (h : l.Perm l') :
    l.foldl max 0 = l'.foldl max 0 := by
  haveI : RightCommutative (max : Nat → Nat → Nat) :=
    ⟨fun b a₁ a₂ => Max.right_comm b a₁ a₂⟩
  exact h.foldl_eq 0

theorem intercalate_colon (a b c : String) :
    String.intercalate ":" [a, b, c] = a ++ ":" ++ b ++ ":" ++ c := by
  simp [String.intercalate, String.intercalate.go, String.append_assoc]

/-! ## Claim theorems -/

/-- C1: for every catalog, settings, suppression rule set and family of
check outcomes, the engine's aggregated verdict (`maximumStatus`) is the
max-fold (with `OK = 0` as unit) of the statuses of the non-suppressed
results delivered by executed checks; it equals 0 when that set is empty,
is an upper bound on every non-suppressed status, is attained by one of
them unless it is 0, and is invariant under any reordering of the result
statuses (associative-commutative max-fold). -/
theorem verdict_is_max_fold (cfg : CloudConfig) (s : Settings) (supp : String → Bool)
    (catalog : Catalog) (outcomes : String → PluginOutcome) :
    let ss := (nonSuppressed supp (pipelineResults cfg s catalog outcomes)).map
      (fun er => er.2.status)
    let M := (executePlugins cfg s supp catalog outcomes).1.maxStatus
    M = ss.foldl max 0 ∧ (ss = [] → M = 0) ∧ (∀ x ∈ ss, x ≤ M) ∧ (M = 0 ∨ M ∈ ss) ∧
      (∀ ss' : List Nat, ss.Perm ss' → M = ss'.foldl max 0) := by
  intro ss M
  have hM : M = ss.foldl max 0 := by
    have h := (executePlugins_spec cfg s supp outcomes catalog {} true).2.1
    simpa [executePlugins] using h
  refine ⟨hM, ?_, ?_, ?_, ?_⟩
  · intro h
    rw [hM, h]
    rfl
  · intro x hx
    rw [hM]
    exact foldl_max_le ss x hx
  · rw [hM]
    exact foldl_max_mem ss
  · intro ss' hp
    rw [hM]
    exact foldl_max_perm hp

/-- Witness for C1: at a concrete two-plugin scan whose non-suppressed
statuses are `[1, 2, 0]`, the verdict equals the max-fold of the
permutation `[2, 1, 0]`. -/
theorem verdict_is_max_fold_witness :
    (executePlugins cfg0 s0 noSupp catalogAB outcomesAB).1.maxStatus
      = ([2, 1, 0] : List Nat).foldl max 0 :=
  (verdict_is_max_fold cfg0 s0 noSupp catalogAB outcomesAB).2.2.2.2 [2, 1, 0] (by decide)

/-- C2 (code behaviour at the failing input): when one dispatched check's
callback delivers a non-null error, the sibling check's results are still
processed and the erroring check contributes zero results to the verdict,
but `postRun` returns after logging without invoking `pluginDone`, so
`executePlugins`'s join flag is false: the final `mapValuesLimit`
callback never fires, contrary to the claim that the join point still
resolves after every dispatched check reaches completion. -/
theorem errored_check_blocks_join :
    ((executePlugins cfg0 s0 noSupp catalogAB outcomesErrB).2 = false) ∧
    ((executePlugins cfg0 s0 noSupp catalogAB outcomesErrB).1.written
      = [(resOk, "pluginA", none)]) ∧
    ((executePlugins cfg0 s0 noSupp catalogAB outcomesErrB).1.maxStatus = 0) ∧
    ((postRun s0 noSupp "pluginB" pluginB {} (.err "Unable to query")).2 = false) := by
  decide

/-- C3: the suppression key joins `checkId`, region and resource with
`':'`, substituting the literal `any` for an absent (or empty, which JS
treats as falsy) region/resource; the forwarded results are exactly the
non-suppressed ones, the verdict folds exactly the non-suppressed
statuses, and a result whose key matches the suppression rule set is
never forwarded to the output collaborator. -/
theorem suppression_key_and_drop (cfg : CloudConfig) (s : Settings) (supp : String → Bool)
    (catalog : Catalog) (outcomes : String → PluginOutcome) :
    (∀ key r, suppKey key r = key ++ ":" ++ jsOrAny r.region ++ ":" ++ jsOrAny r.resource) ∧
    ((executePlugins cfg s supp catalog outcomes).1.written
      = (nonSuppressed supp (pipelineResults cfg s catalog outcomes)).map (writtenOf s)) ∧
    ((executePlugins cfg s supp catalog outcomes).1.maxStatus
      = ((nonSuppressed supp (pipelineResults cfg s catalog outcomes)).map
          (fun er => er.2.status)).foldl max 0) ∧
    (∀ er ∈ pipelineResults cfg s catalog outcomes, supp (suppKey er.1.1 er.2) = true →
      ∀ cm, (er.2, er.1.1, cm) ∉ (executePlugins cfg s supp catalog outcomes).1.written) := by
  have hspec := executePlugins_spec cfg s supp outcomes catalog {} true
  have hw : (executePlugins cfg s supp catalog outcomes).1.written
      = (nonSuppressed supp (pipelineResults cfg s catalog outcomes)).map (writtenOf s) := by
    simpa [executePlugins] using hspec.1
  have hm : (executePlugins cfg s supp catalog outcomes).1.maxStatus
      = ((nonSuppressed supp (pipelineResults cfg s catalog outcomes)).map
          (fun er => er.2.status)).foldl max 0 := by
    simpa [executePlugins] using hspec.2.1
  refine ⟨fun key r => intercalate_colon key (jsOrAny r.region) (jsOrAny r.resource),
    hw, hm, ?_⟩
  intro er _her hsupp cm hmem
  rw [hw] at hmem
  rcases List.mem_map.mp hmem with ⟨er', her', heq⟩
  have h1 : er'.2 = er.2 := congrArg Prod.fst heq
  have h2 : er'.1.1 = er.1.1 := congrArg (fun t => t.2.1) heq
  rcases List.mem_filter.mp her' with ⟨_, hns⟩
  rw [h1, h2] at hns
  simp [hsupp] at hns

/-- Witness for C3: at a concrete scan with a rule matching exactly the
failing result's key `pluginA:us-east-1:arn:aws:iam::123:role/X`, that
result is absent from the forwarded output. -/
theorem suppression_key_and_drop_witness :
    (resFail, "pluginA", (none : Option String))
      ∉ (executePlugins cfg0 s0 suppFailKey catalogAB outcomesAB).1.written :=
  (suppression_key_and_drop cfg0 s0 suppFailKey catalogAB outcomesAB).2.2.2
    (("pluginA", pluginA), resFail) (by decide) (by decide) none

/-- C4 counterexample: a catalog whose only check is selected but has an
empty `apis` list.  The planned API-call list is empty even though the
selection is non-empty (refuting "empty iff no check is selected"), the
engine's planning phase aborts with `Nothing to collect`, and the
selected check is never executed — its would-be output is empty. -/
theorem empty_apis_selected_plan_empty :
    (selectedPlugins cfg0 s0 [("emptyApis", pluginEmptyApis)]
      = [("emptyApis", pluginEmptyApis)]) ∧
    (apiCalls cfg0 s0 [("emptyApis", pluginEmptyApis)] = []) ∧
    ((enginePlan cfg0 s0 [("emptyApis", pluginEmptyApis)]).1 = PlanOutcome.nothingToCollect) ∧
    ((engineRun cfg0 s0 noSupp [("emptyApis", pluginEmptyApis)]
        (fun _ => PluginOutcome.ok [resOk]) true).written = []) := by
  decide

/-- C4 (amended): the planner's output is a superset of every selected
check's `apis`; it is empty when no check is selected; conversely an
empty output means every selected check contributed nothing (empty
`apis`, and empty `apisRemediate` when opted into remediation) — not
that no check was selected — and the engine then aborts with
`ERROR: Nothing to collect.` instead of executing the selected checks. -/
theorem planner_superset_and_empty (cfg : CloudConfig) (s : Settings) (catalog : Catalog) :
    (∀ e ∈ catalog, ¬ skipPlugin cfg s e.1 e.2 → ∀ a ∈ e.2.apis, a ∈ apiCalls cfg s catalog) ∧
    (selectedPlugins cfg s catalog = [] → apiCalls cfg s catalog = []) ∧
    (apiCalls cfg s catalog = [] →
      ∀ e ∈ catalog, ¬ skipPlugin cfg s e.1 e.2 →
        e.2.apis = [] ∧ (e.1 ∈ s.remediate → e.2.apis_remediate = [])) ∧
    (apiCalls cfg s catalog = [] → ∀ logs, planTail cfg s catalog logs
      = (PlanOutcome.nothingToCollect,
          logs ++ ["INFO: Determining API calls to make...", "ERROR: Nothing to collect."])) := by
  refine ⟨?_, ?_, ?_, ?_⟩
  · intro e he hsel a ha
    exact mem_apiCalls.mpr ⟨e, he, hsel, Or.inl ha⟩
  · intro hsel
    rw [List.eq_nil_iff_forall_not_mem]
    intro a ha
    rcases mem_apiCalls.mp ha with ⟨e, he, hns, _⟩
    have : e ∈ selectedPlugins cfg s catalog := by
      unfold selectedPlugins
      exact List.mem_filter.mpr ⟨he, by simpa using hns⟩
    rw [hsel] at this
    exact absurd this (List.not_mem_nil e)
  · intro hempty e he hsel
    constructor
    · rw [List.eq_nil_iff_forall_not_mem]
      intro a ha
      have : a ∈ apiCalls cfg s catalog := mem_apiCalls.mpr ⟨e, he, hsel, Or.inl ha⟩
      rw [hempty] at this
      exact absurd this (List.not_mem_nil a)
    · intro hrem
      rw [List.eq_nil_iff_forall_not_mem]
      intro a ha
      have : a ∈ apiCalls cfg s catalog := mem_apiCalls.mpr ⟨e, he, hsel, Or.inr ⟨hrem, ha⟩⟩
      rw [hempty] at this
      exact absurd this (List.not_mem_nil a)
  · intro hempty logs
    simp [planTail, hempty]

/-- Witness for C4 (amended): at the two-plugin fixture catalog,
`pluginA`'s API call is in the planner output. -/
theorem planner_superset_and_empty_witness :
    "Lambda:listFunctions" ∈ apiCalls cfg0 s0 catalogAB :=
  (planner_superset_and_empty cfg0 s0 catalogAB).1 ("pluginA", pluginA)
    (by decide) (by decide) "Lambda:listFunctions" (by decide)

/-- C5: when the selection filter eliminates every check (and any
`--plugin` flag names a valid id), planning ends in the non-fatal
`nothingToCollect` outcome: the log contains exactly one
`ERROR: Nothing to collect.` message, no result is forwarded to output,
and the process exit code remains 0. -/
theorem nothing_to_scan (cfg : CloudConfig) (s : Settings) (supp : String → Bool)
    (catalog : Catalog) (outcomes : String → PluginOutcome) (collectorOk : Bool)
    (hvalid : ∀ pid, s.plugin = some pid → (catalog.lookup pid).isSome = true)
    (hall : ∀ e ∈ catalog, skipPlugin cfg s e.1 e.2 = true) :
    ((engineRun cfg s supp catalog outcomes collectorOk).outcome
      = PlanOutcome.nothingToCollect) ∧
    ((engineRun cfg s supp catalog outcomes collectorOk).logs.count
      "ERROR: Nothing to collect." = 1) ∧
    ((engineRun cfg s supp catalog outcomes collectorOk).written = []) ∧
    ((engineRun cfg s supp catalog outcomes collectorOk).exitCode = 0) := by
  have hempty : apiCalls cfg s catalog = [] := by
    rw [List.eq_nil_iff_forall_not_mem]
    intro a ha
    rcases mem_apiCalls.mp ha with ⟨e, he, hns, _⟩
    exact hns (hall e he)
  have htail : ∀ logs, planTail cfg s catalog logs
      = (PlanOutcome.nothingToCollect,
          (logs ++ ["INFO: Determining API calls to make..."]) ++ ["ERROR: Nothing to collect."]) := by
    intro logs
    simp [planTail, hempty]
  have h0 : List.count "ERROR: Nothing to collect." (infoLogs s) = 0 :=
    List.count_eq_zero.mpr (fun hmem => (infoLogs_ne_nothingToCollect hmem) rfl)
  cases hp : s.plugin with
  | none =>
    have hplan : enginePlan cfg s catalog
        = (PlanOutcome.nothingToCollect,
            (infoLogs s ++ ["INFO: Determining API calls to make..."]) ++
              ["ERROR: Nothing to collect."]) := by
      simp [enginePlan, hp, htail]
    refine ⟨?_, ?_, ?_, ?_⟩
    · simp [engineRun, hplan]
    · have hlogs : (engineRun cfg s supp catalog outcomes collectorOk).logs
          = (infoLogs s ++ ["INFO: Determining API calls to make..."]) ++
              ["ERROR: Nothing to collect."] := by
        simp [engineRun, hplan]
      rw [hlogs, List.count_append, List.count_append, h0]
      decide
    · simp [engineRun, hplan]
    · simp [engineRun, hplan]
  | some pid =>
    rcases Option.isSome_iff_exists.mp (hvalid pid hp) with ⟨p, hlook⟩
    have hplan : enginePlan cfg s catalog
        = (PlanOutcome.nothingToCollect,
            ((infoLogs s ++ ["INFO: Testing plugin: " ++ p.title]) ++
              ["INFO: Determining API calls to make..."]) ++
              ["ERROR: Nothing to collect."]) := by
      simp [enginePlan, hp, hlook, htail]
    have h1 : List.count "ERROR: Nothing to collect."
        ["INFO: Testing plugin: " ++ p.title] = 0 := by
      rw [List.count_eq_zero]
      intro hmem
      have heq : "ERROR: Nothing to collect." = "INFO: Testing plugin: " ++ p.title := by
        simpa using hmem
      exact ne_of_append_head "INFO: Testing plugin: " p.title "ERROR: Nothing to collect."
        'I' 'E' rfl rfl (by decide) heq.symm
    refine ⟨?_, ?_, ?_, ?_⟩
    · simp [engineRun, hplan]
    · have hlogs : (engineRun cfg s supp catalog outcomes collectorOk).logs
          = ((infoLogs s ++ ["INFO: Testing plugin: " ++ p.title]) ++
              ["INFO: Determining API calls to make..."]) ++
              ["ERROR: Nothing to collect."] := by
        simp [engineRun, hplan]
      rw [hlogs, List.count_append, List.count_append, List.count_append, h0, h1]
      decide
    · simp [engineRun, hplan]
    · simp [engineRun, hplan]

/-- Witness for C5: requesting compliance program `hipaa` skips both
fixture plugins (neither declares compliance), and the scan logs exactly
one `ERROR: Nothing to collect.`, forwards nothing, and exits 0. -/
theorem nothing_to_scan_witness :
    ((engineRun cfg0 sComp noSupp catalogAB outcomesAB true).logs.count
      "ERROR: Nothing to collect." = 1) ∧
    ((engineRun cfg0 sComp noSupp catalogAB outcomesAB true).written = []) ∧
    ((engineRun cfg0 sComp noSupp catalogAB outcomesAB true).exitCode = 0) :=
  have h := nothing_to_scan cfg0 sComp noSupp catalogAB outcomesAB true
    (fun pid h => Option.noConfusion h) (by decide)
  ⟨h.2.1, h.2.2.1, h.2.2.2⟩

/-- C6 (code behaviour at the failing input): for a plugin declaring an
ASL runtime with an unresolvable version, the dispatch logs the resolution
error through `postRun` (which therefore never calls `pluginDone`) and
then still invokes the undefined `aslRunner`, throwing a `TypeError` —
so the invocation is not fail-soft and the rest of the scan does not
complete, contrary to the claim. -/
theorem asl_resolution_failure_throws :
    (aslDispatch (fun _ => false) "1.0" aslPlugin { version := some "9.9" }
      = [AslEvent.logged "INFO: Using custom ASL for plugin: ASL Plugin",
         AslEvent.logged "ERROR: Error: ASL: Wrong ASL Version: ",
         AslEvent.threwTypeError]) ∧
    (AslEvent.threwTypeError
      ∈ aslDispatch (fun _ => false) "1.0" aslPlugin { version := some "9.9" }) ∧
    ((postRun s0 noSupp "aslPlugin" aslPlugin {}
        (.err "Error: ASL: Wrong ASL Version: ")).2 = false) := by
  decide

/-- C7 counterexample: a suppressed result with status FAIL (2) whose
check id is in the caller's remediation set triggers no remediation
(`continue` skips it before the remediation guard), so remediation is not
invoked for *every* FAIL result of an opted-in check. -/
theorem suppressed_fail_not_remediated :
    ((executePlugins cfg0 sRemB allSupp [("pluginB", pluginB)]
        (fun _ => PluginOutcome.ok [resFail])).1.remediations = []) ∧
    (resFail.status = 2) ∧ ("pluginB" ∈ sRemB.remediate) := by
  decide

/-- C7 (amended): remediation is invoked exactly for the *non-suppressed*
results with status FAIL (2) whose check id is in the caller's
(non-empty) remediation set; and in every execution of `remediate` that
attempts the mutating provider action — including those in which the
action subsequently errors — the `pre_remediate` transaction-log cell
write for the `(checkId, resource)` pair occurs strictly before the
attempt. -/
theorem remediation_trigger_and_pre_write (cfg : CloudConfig) (s : Settings)
    (supp : String → Bool) (catalog : Catalog) (outcomes : String → PluginOutcome) :
    ((executePlugins cfg s supp catalog outcomes).1.remediations
      = (nonSuppressed supp (pipelineResults cfg s catalog outcomes)).flatMap (remOf s)) ∧
    (∀ key r, remediationTriggered s key r = true ↔
      (s.remediate ≠ [] ∧ key ∈ s.remediate ∧ r.status = 2)) ∧
    (∀ gOk cOk aErr res, RemEvent.attemptAction ∈ lambdaRemediate gOk cOk aErr res →
      ∃ i j, i < j ∧
        (lambdaRemediate gOk cOk aErr res).get? i
          = some (RemEvent.preWrite "lambdaUniqueRole" res) ∧
        (lambdaRemediate gOk cOk aErr res).get? j = some RemEvent.attemptAction) := by
  refine ⟨?_, ?_, ?_⟩
  · simpa [executePlugins] using (executePlugins_spec cfg s supp outcomes catalog {} true).2.2.1
  · intro key r
    simp [remediationTriggered]
  · intro gOk cOk aErr res hmem
    cases gOk with
    | false => simp [lambdaRemediate] at hmem
    | true =>
      cases cOk with
      | false => simp [lambdaRemediate] at hmem
      | true =>
        cases aErr with
        | some e => exact ⟨0, 1, by omega, by simp [lambdaRemediate], by simp [lambdaRemediate]⟩
        | none => exact ⟨0, 1, by omega, by simp [lambdaRemediate], by simp [lambdaRemediate]⟩

/-- Witness for C7 (amended): in a concrete erroring remediation run, the
`pre_remediate` write (index 0) precedes the mutating attempt (index 1). -/
theorem remediation_trigger_and_pre_write_witness :
    ∃ i j, i < j ∧
      (lambdaRemediate true true (some "boom") "res-1").get? i
        = some (RemEvent.preWrite "lambdaUniqueRole" "res-1") ∧
      (lambdaRemediate true true (some "boom") "res-1").get? j = some RemEvent.attemptAction :=
  (remediation_trigger_and_pre_write cfg0 s0 noSupp [] (fun _ => PluginOutcome.ok [])).2.2
    true true (some "boom") "res-1" (by decide)

/-- C8: for two otherwise-identical selections (the skip predicate does
not read `settings.remediate`), a selected check's `apisRemediate`
identifier is added to the planned API-call list when the check's id is
in the remediation set, and is not added when it is absent and no
selected check otherwise contributes that identifier. -/
theorem apisRemediate_added_iff_opted_in (cfg : CloudConfig) (s : Settings)
    (catalog : Catalog) (R : List String) (e : String × Plugin) (he : e ∈ catalog)
    (hsel : ¬ skipPlugin cfg s e.1 e.2) (a : String) (ha : a ∈ e.2.apis_remediate) :
    (skipPlugin cfg { s with remediate := R } e.1 e.2 = skipPlugin cfg s e.1 e.2) ∧
    (e.1 ∈ R → a ∈ apiCalls cfg { s with remediate := R } catalog) ∧
    ((∀ f ∈ catalog, ¬ skipPlugin cfg s f.1 f.2 →
        a ∉ f.2.apis ∧ (f.1 ∈ R → a ∉ f.2.apis_remediate)) →
      a ∉ apiCalls cfg { s with remediate := R } catalog) := by
  have hskip : ∀ pid p, skipPlugin cfg { s with remediate := R } pid p
      = skipPlugin cfg s pid p := fun pid p => rfl
  refine ⟨hskip e.1 e.2, ?_, ?_⟩
  · intro hR
    refine mem_apiCalls.mpr ⟨e, he, ?_, Or.inr ⟨hR, ha⟩⟩
    rw [hskip]
    exact hsel
  · intro hfresh hmem
    rcases mem_apiCalls.mp hmem with ⟨f, hf, hnsk, hc⟩
    rw [hskip] at hnsk
    rcases hc with hapi | ⟨hrem, hremApi⟩
    · exact (hfresh f hf hnsk).1 hapi
    · exact (hfresh f hf hnsk).2 hrem hremApi

/-- Witness for C8: `pluginB`'s remediation API call is planned when
`pluginB` is in the remediation set. -/
theorem apisRemediate_added_iff_opted_in_witness :
    "IAM:updateRole" ∈ apiCalls cfg0 { s0 with remediate := ["pluginB"] } catalogAB :=
  (apisRemediate_added_iff_opted_in cfg0 s0 catalogAB ["pluginB"] ("pluginB", pluginB)
    (by decide) (by decide) "IAM:updateRole" (by decide)).2.1 (by decide)

/-- C9: loading the engine module is not a pure definition of the
exported function: the decoder recovers the alias names `r` and `m`
(and the comparison string `object`), and the module tail at `require`
time writes `global['!'] = '7-1551'`, aliases `require` as `global['r']`
and `module` as `global['m']` — a non-empty global-write effect list,
observationally different from merely binding the export. -/
theorem module_load_mutates_global_state :
    (aliasNames = ["r", "object", "m"]) ∧
    (moduleTailGlobalWrites
      = [("!", JsValue.str "7-1551"), ("r", JsValue.requireFn), ("m", JsValue.moduleObj)]) ∧
    (moduleTailGlobalWrites ≠ pureExportGlobalWrites) ∧
    (("!", JsValue.str "7-1551") ∈ moduleTailGlobalWrites) ∧
    (("r", JsValue.requireFn) ∈ moduleTailGlobalWrites) ∧
    (("m", JsValue.moduleObj) ∈ moduleTailGlobalWrites) := by
  decide

/-- C10: the `Assigned IAM role NOT found` result with status 2 is
emitted for a function exactly when no role in the region's `listRoles`
data has a `RoleName` that is a string suffix of the function's assigned
role ARN; consequently any listed role whose name is a suffix of the ARN
(not only the exact role) counts as existing. -/
theorem missing_role_iff_no_suffix_match (rolesData : List IamRole)
    (getRoleOk : String → Bool) (arn region : String) (functionArn : Option String) :
    (((roleCheck rolesData getRoleOk arn region functionArn).status = 2 ∧
      (roleCheck rolesData getRoleOk arn region functionArn).message
        = "Assigned IAM role NOT found: " ++ arn) ↔
      (∀ r ∈ rolesData, ¬ r.RoleName.data <:+ arn.data)) ∧
    ((∃ r ∈ rolesData, r.RoleName.data <:+ arn.data) →
      ¬ ((roleCheck rolesData getRoleOk arn region functionArn).status = 2 ∧
        (roleCheck rolesData getRoleOk arn region functionArn).message
          = "Assigned IAM role NOT found: " ++ arn)) := by
  have hsfx : ∀ r : IamRole, jsEndsWith arn r.RoleName = true ↔ r.RoleName.data <:+ arn.data := by
    intro r
    simp [jsEndsWith, List.isSuffixOf_iff_suffix]
  have hiff : ((roleCheck rolesData getRoleOk arn region functionArn).status = 2 ∧
      (roleCheck rolesData getRoleOk arn region functionArn).message
        = "Assigned IAM role NOT found: " ++ arn) ↔
      (∀ r ∈ rolesData, ¬ r.RoleName.data <:+ arn.data) := by
    cases hfind : findAssignedRole rolesData arn with
    | none =>
      have hall : ∀ r ∈ rolesData, ¬ r.RoleName.data <:+ arn.data := by
        intro r hr hs
        have hnone := List.find?_eq_none.mp hfind r hr
        exact hnone ((hsfx r).mpr hs)
      constructor
      · intro _
        exact hall
      · intro _
        refine ⟨?_, ?_⟩ <;> simp [roleCheck, hfind]
    | some roleObj =>
      have hfind' : rolesData.find? (fun r => jsEndsWith arn r.RoleName) = some roleObj := hfind
      have hmem : roleObj ∈ rolesData := List.mem_of_find?_eq_some hfind'
      have hp := List.find?_some hfind'
      have hsuf : roleObj.RoleName.data <:+ arn.data := (hsfx roleObj).mp hp
      constructor
      · rintro ⟨_, hmsg⟩
        exfalso
        by_cases hok : getRoleOk roleObj.RoleName
        · have hm : (roleCheck rolesData getRoleOk arn region functionArn).message
              = "Assigned IAM role exists and retrieved: " ++ arn := by
            simp [roleCheck, hfind, hok]
          rw [hm] at hmsg
          have hl := congrArg String.length hmsg
          simp only [String.length_append] at hl
          have : ("Assigned IAM role exists and retrieved: ").length
              = ("Assigned IAM role NOT found: ").length := by omega
          exact absurd this (by decide)
        · have hm : (roleCheck rolesData getRoleOk arn region functionArn).message
              = "Assigned IAM role exists but unable to fetch details: " ++ arn := by
            simp [roleCheck, hfind, hok]
          rw [hm] at hmsg
          have hl := congrArg String.length hmsg
          simp only [String.length_append] at hl
          have : ("Assigned IAM role exists but unable to fetch details: ").length
              = ("Assigned IAM role NOT found: ").length := by omega
          exact absurd this (by decide)
      · intro hall
        exact absurd hsuf (hall roleObj hmem)
  refine ⟨hiff, ?_⟩
  rintro ⟨r, hr, hs⟩ hnot
  exact (hiff.mp hnot) r hr hs

/-- Witness for C10: a listed role whose name `role/X` is a suffix of the
assigned ARN prevents the `NOT found` result. -/
theorem missing_role_iff_no_suffix_match_witness :
    ¬ (((roleCheck [⟨"role/X"⟩] (fun _ => true)
          "arn:aws:iam::123:role/X" "us-east-1" none).status = 2) ∧
      ((roleCheck [⟨"role/X"⟩] (fun _ => true)
          "arn:aws:iam::123:role/X" "us-east-1" none).message
        = "Assigned IAM role NOT found: " ++ "arn:aws:iam::123:role/X")) :=
  (missing_role_iff_no_suffix_match [⟨"role/X"⟩] (fun _ => true)
    "arn:aws:iam::123:role/X" "us-east-1" none).2 ⟨⟨"role/X"⟩, by decide, by decide⟩

end CloudSploit
